import Mathlib

/-
Verification of the upnp-igdp crate (UPnP Internet Gateway Device client).

The development shallowly embeds the crate's pure protocol logic:
`src/util.rs` (url2sock, the request formatters and their literal
constants), `src/xml.rs` (the optional-chaining XML cursor),
`src/error.rs` (the error enumeration) and the response-processing parts
of `src/lib.rs` (the discovery retry loop, the M-SEARCH reply handling,
extract_control_url, extract_external_ip, extract_port_mapping and the
two actions on a `Control` session).

Foreign libraries are modelled at the interface the crate consumes:
the outcome of `httparse::Response::parse` is an input (error /
incomplete / complete-with-status-and-body), a `roxmltree` document is a
tree of elements and text nodes navigated by local tag name, a parsed
`url::Url` is its scheme / host / explicit port / path, and the network
is an environment delivering per-attempt outcomes (datagram received,
receive failure, timer failure, or a timer win, i.e. a timeout).
-/

namespace UpnpIgdp

/-- Lowercase an ASCII letter, leaving every other character unchanged. -/
def asciiLower (c : Char) : Char :=
  if 'A' ≤ c ∧ c ≤ 'Z' then Char.ofNat (c.toNat + 32) else c

/-- ASCII case-insensitive string equality, modelling the `unicase::Ascii`
comparisons in `lib.rs` (header name lookup and serviceType matching). -/
def asciiCaseEq (a b : String) : Bool :=
  a.data.map asciiLower == b.data.map asciiLower

/-- The error enumeration of `src/error.rs`. The payloads carried by the
wrappers for foreign errors (`Io`, `Http`, `Utf8`, `Xml`, `Url`) are
abstracted away; `statusCode` keeps its `Option<u16>` payload. -/
inductive Error where
  | bindFail
  | timeout
  | location
  | controlUrl
  | hostPort
  | statusCode (code : Option Nat)
  | ioErr
  | httpErr
  | utf8Err
  | xmlErr
  | urlErr
  | timer
deriving DecidableEq

mutual
/-- A `roxmltree` node: an element with a tag name and children, or a text
node.  Tag names are local names: the crate only ever calls
`has_tag_name(&str)`, which compares local names and ignores namespaces. -/
inductive Xml where
  | elem (name : String) (children : XmlChildren)
  | text (s : String)

/-- Children of an element, as a dedicated inductive so that every traversal
below is structurally recursive (and therefore kernel-evaluable). -/
inductive XmlChildren where
  | nil
  | cons (hd : Xml) (tl : XmlChildren)
end

/-- Build a children list from a Lean list. -/
def XmlChildren.ofList : List Xml → XmlChildren
  | [] => .nil
  | x :: xs => .cons x (XmlChildren.ofList xs)

/-- Shorthand for building an element node. -/
def xelem (name : String) (cs : List Xml) : Xml :=
  .elem name (.ofList cs)

/-- First child that is an element with the given tag name, modelling
`n.children().find(|n| n.has_tag_name(name))`. -/
def XmlChildren.findNamed (name : String) : XmlChildren → Option Xml
  | .nil => none
  | .cons (.elem n cs) tl =>
      if n == name then some (.elem n cs) else XmlChildren.findNamed name tl
  | .cons (.text _) tl => XmlChildren.findNamed name tl

/-- roxmltree `Node::text()`: the contents of a text node, or for an element
the contents of its first child when that child is a text node. -/
def Xml.textOf : Xml → Option String
  | .text s => some s
  | .elem _ (.cons (.text s) _) => some s
  | .elem _ _ => none

mutual
/-- roxmltree `Node::descendants()`: the node itself followed by all of its
descendants, in document order. -/
def Xml.descendants : Xml → List Xml
  | .text s => [.text s]
  | .elem n cs => .elem n cs :: XmlChildren.descendants cs

/-- Descendants of every node of a children list, in document order. -/
def XmlChildren.descendants : XmlChildren → List Xml
  | .nil => []
  | .cons x tl => x.descendants ++ XmlChildren.descendants tl
end

/-- roxmltree `Node::has_tag_name`, as the predicate form used in
`extract_control_url`. -/
def hasTagName (name : String) : Xml → Bool
  | .elem n _ => n == name
  | .text _ => false

/-- The cursor of `src/xml.rs`: a read-only wrapper around "current node or
none". -/
structure Cursor where
  node : Option Xml

/-- `Cursor::get`: descend to the first child element with the given tag
name; an empty cursor (or a text node) stays empty. -/
def Cursor.get (c : Cursor) (name : String) : Cursor :=
  ⟨c.node.bind fun n =>
    match n with
    | .elem _ cs => cs.findNamed name
    | .text _ => none⟩

/-- `Cursor::text`. -/
def Cursor.text (c : Cursor) : Option String :=
  c.node.bind Xml.textOf

/-- Decimal value of a digit list (helper for the numeric parsers). -/
def decValue (cs : List Char) : Nat :=
  cs.foldl (fun n c => n * 10 + (c.toNat - '0'.toNat)) 0

/-- Rust `u16::from_str` (used by `extract_port_mapping` via
`str::parse::<u16>`): an optional leading `+`, then one or more decimal
digits, with the value at most 65535. -/
def parseU16 (s : String) : Option Nat :=
  let cs := match s.data with
    | '+' :: rest => rest
    | cs => cs
  if cs ≠ [] ∧ cs.all (·.isDigit) then
    let n := decValue cs
    if n ≤ 65535 then some n else none
  else none

/-- Split a character list at every occurrence of a separator character. -/
def splitChar (sep : Char) : List Char → List (List Char)
  | [] => [[]]
  | c :: rest =>
    let r := splitChar sep rest
    if c = sep then [] :: r
    else
      match r with
      | g :: gs => (c :: g) :: gs
      | [] => [[c]]

/-- One dotted-quad octet per Rust's IP parser: one to three decimal digits,
no leading zero (except the string "0"), value at most 255. -/
def parseIpv4Octet (cs : List Char) : Option Nat :=
  if cs ≠ [] ∧ cs.length ≤ 3 ∧ cs.all (·.isDigit) ∧ (cs = ['0'] ∨ cs.head? ≠ some '0') then
    let n := decValue cs
    if n ≤ 255 then some n else none
  else none

/-- Rust `Ipv4Addr::from_str`: exactly four octets separated by dots. -/
def parseIpv4 (s : String) : Option (Nat × Nat × Nat × Nat) :=
  match (splitChar '.' s.data).mapM parseIpv4Octet with
  | some [a, b, c, d] => some (a, b, c, d)
  | _ => none

/-- Value of a hexadecimal digit. -/
def hexVal (c : Char) : Option Nat :=
  if '0' ≤ c ∧ c ≤ '9' then some (c.toNat - '0'.toNat)
  else if 'a' ≤ c ∧ c ≤ 'f' then some (c.toNat - 'a'.toNat + 10)
  else if 'A' ≤ c ∧ c ≤ 'F' then some (c.toNat - 'A'.toNat + 10)
  else none

/-- One IPv6 group: one to four hexadecimal digits. -/
def parseHexGroup (cs : List Char) : Option Nat :=
  if cs ≠ [] ∧ cs.length ≤ 4 then
    (cs.mapM hexVal).map (·.foldl (fun n d => n * 16 + d) 0)
  else none

/-- Parse colon-separated IPv6 groups; when `allowV4` the final group may be
an embedded dotted-quad IPv4 address, contributing two 16-bit groups.  Empty
input yields no groups. -/
def parseV6Groups (allowV4 : Bool) (cs : List Char) : Option (List Nat) :=
  if cs = [] then some []
  else
    let parts := splitChar ':' cs
    match parts.dropLast.mapM parseHexGroup, parts.getLast? with
    | some gs, some lastPart =>
      match parseHexGroup lastPart with
      | some g => some (gs ++ [g])
      | none =>
        if allowV4 then
          match parseIpv4 (String.mk lastPart) with
          | some (a, b, c, d) => some (gs ++ [a * 256 + b, c * 256 + d])
          | none => none
        else none
    | _, _ => none

/-- Split at the first occurrence of a double colon, if any. -/
def splitDoubleColon : List Char → Option (List Char × List Char)
  | [] => none
  | ':' :: ':' :: rest => some ([], rest)
  | c :: rest => (splitDoubleColon rest).map fun p => (c :: p.1, p.2)

/-- Model of Rust `Ipv6Addr::from_str`: eight hexadecimal groups separated by
colons, one optional `::` elision standing for at least one zero group, and
an optional embedded IPv4 address in the last position.  Returns the eight
16-bit groups. -/
def parseIpv6 (s : String) : Option (List Nat) :=
  match splitDoubleColon s.data with
  | some (l, r) =>
    if (splitDoubleColon r).isSome then none
    else
      match parseV6Groups false l, parseV6Groups true r with
      | some gl, some gr =>
        if gl.length + gr.length ≤ 7 then
          some (gl ++ List.replicate (8 - gl.length - gr.length) 0 ++ gr)
        else none
      | _, _ => none
  | none =>
    match parseV6Groups true s.data with
    | some gs => if gs.length = 8 then some gs else none
    | none => none

/-- Rust `std::net::IpAddr`: a v4 address as four octets or a v6 address as
eight 16-bit groups. -/
inductive IpAddr where
  | v4 (a b c d : Nat)
  | v6 (g1 g2 g3 g4 g5 g6 g7 g8 : Nat)
deriving DecidableEq

/-- Model of Rust `str::parse::<IpAddr>()` (used by `extract_external_ip`):
try the IPv4 form first, then the IPv6 form. -/
def parseIpAddr (s : String) : Option IpAddr :=
  match parseIpv4 s with
  | some (a, b, c, d) => some (.v4 a b c d)
  | none =>
    match parseIpv6 s with
    | some [g1, g2, g3, g4, g5, g6, g7, g8] => some (.v6 g1 g2 g3 g4 g5 g6 g7 g8)
    | _ => none

/-- Display of an IPv4 address (Rust `Ipv4Addr` Display). -/
def ipv4Display (a b c d : Nat) : String :=
  toString a ++ "." ++ toString b ++ "." ++ toString c ++ "." ++ toString d

/-- Lowercase hexadecimal digit character. -/
def hexDigitChar (n : Nat) : Char :=
  if n < 10 then Char.ofNat ('0'.toNat + n) else Char.ofNat ('a'.toNat + n - 10)

/-- Lowercase hexadecimal rendering of a 16-bit group, without padding
(Rust's `{:x}`). -/
def hexDisplay (n : Nat) : String :=
  let ds := [n / 4096 % 16, n / 256 % 16, n / 16 % 16, n % 16]
  let ds := ds.dropWhile (· = 0)
  let ds := if ds = [] then [0] else ds
  String.mk (ds.map hexDigitChar)

/-- Longest run of zero groups, leftmost among runs of equal length:
`(start, length)`. -/
def zeroRunAux : List Nat → Nat → Nat × Nat → Nat × Nat → Nat × Nat
  | [], _, best, cur => if cur.2 > best.2 then cur else best
  | g :: rest, i, best, cur =>
    if g = 0 then
      zeroRunAux rest (i + 1) best (if cur.2 = 0 then (i, 1) else (cur.1, cur.2 + 1))
    else
      zeroRunAux rest (i + 1) (if cur.2 > best.2 then cur else best) (0, 0)

/-- Display of an IPv6 address per Rust `Ipv6Addr` Display: special forms for
the unspecified, loopback and v4-mapped addresses, otherwise hexadecimal
groups with the longest zero run (of length at least two) elided. -/
def ipv6Display (g1 g2 g3 g4 g5 g6 g7 g8 : Nat) : String :=
  let gs := [g1, g2, g3, g4, g5, g6, g7, g8]
  if gs = [0, 0, 0, 0, 0, 0, 0, 0] then "::"
  else if gs = [0, 0, 0, 0, 0, 0, 0, 1] then "::1"
  else if g1 = 0 ∧ g2 = 0 ∧ g3 = 0 ∧ g4 = 0 ∧ g5 = 0 ∧ g6 = 65535 then
    "::ffff:" ++ ipv4Display (g7 / 256) (g7 % 256) (g8 / 256) (g8 % 256)
  else
    let run := zeroRunAux gs 0 (0, 0) (0, 0)
    if run.2 > 1 then
      String.intercalate ":" ((gs.take run.1).map hexDisplay) ++ "::" ++
        String.intercalate ":" ((gs.drop (run.1 + run.2)).map hexDisplay)
    else
      String.intercalate ":" (gs.map hexDisplay)

/-- Display of an IP address. -/
def ipAddrDisplay : IpAddr → String
  | .v4 a b c d => ipv4Display a b c d
  | .v6 a b c d e f g h => ipv6Display a b c d e f g h

/-- Rust `std::net::SocketAddr`. -/
structure SockAddr where
  ip : IpAddr
  port : Nat
deriving DecidableEq

/-- Display of a socket address: `a.b.c.d:p`, or `[v6]:p`. -/
def sockAddrDisplay (s : SockAddr) : String :=
  match s.ip with
  | .v4 a b c d => ipv4Display a b c d ++ ":" ++ toString s.port
  | .v6 .. => "[" ++ ipAddrDisplay s.ip ++ "]:" ++ toString s.port

/-- Host component of a parsed `url::Url` (`url::Host`): a literal IPv4
address, a literal IPv6 address, or a symbolic domain name. -/
inductive UrlHost where
  | ipv4 (a b c d : Nat)
  | ipv6 (g1 g2 g3 g4 g5 g6 g7 g8 : Nat)
  | domain (name : String)
deriving DecidableEq

/-- A parsed `url::Url`, restricted to the accessors the crate uses.  `port`
models `Url::port()`, which reports only an explicitly written, non-default
port: a URL that relies on its scheme's default port has `port = none`. -/
structure Url where
  scheme : String
  host : Option UrlHost
  port : Option Nat
  path : String
deriving DecidableEq

/-- `Url::set_path`, modelled as replacing the path component. -/
def Url.setPath (u : Url) (p : String) : Url :=
  { u with path := p }

/-- `util::url2sock`: accept only a literal IPv4 or IPv6 host together with
an explicit port; anything else is the host/port error. -/
def url2sock (url : Url) : Except Error SockAddr :=
  match url.host, url.port with
  | some (.ipv4 a b c d), some port => .ok ⟨.v4 a b c d, port⟩
  | some (.ipv6 a b c d e f g h), some port => .ok ⟨.v6 a b c d e f g h, port⟩
  | _, _ => .error .hostPort

/-- Is the URL host a literal IP address (as opposed to absent or symbolic)? -/
def hostIsLiteralIp : Option UrlHost → Bool
  | some (.ipv4 ..) => true
  | some (.ipv6 ..) => true
  | _ => false

/-- `util::SERVICE_TYPE`. -/
def SERVICE_TYPE : String := "urn:schemas-upnp-org:service:WANIPConnection:2"

/-- `util::GET_EXTERNAL_IP_SOAP_ENV`, with the raw string literal's exact
text (including the indentation of util.rs). -/
def GET_EXTERNAL_IP_SOAP_ENV : String :=
  "<?xml version=\"1.0\" encoding=\"utf-8\"?>\n    <s:Envelope xmlns:s=\"http://schemas.xmlsoap.org/soap/envelope/\" s:encodingStyle=\"http://schemas.xmlsoap.org/soap/encoding/\">\n        <s:Body>\n            <u:GetExternalIPAddress xmlns:u=\"urn:schemas-upnp-org:service:WANIPConnection:2\"/>\n        </s:Body>\n    </s:Envelope>\n    "

/-- The `Protocol` enum of `lib.rs`. -/
inductive Protocol where
  | tcp
  | udp
deriving DecidableEq

/-- The `fmt::Display` impl for `Protocol`: "TCP" / "UDP". -/
def protocolDisplay : Protocol → String
  | .tcp => "TCP"
  | .udp => "UDP"

/-- `util::format_external_ip`: the POST request for GetExternalIPAddress.
The Rust format string's `\` line continuations eat the following
indentation, so the headers are contiguous; the trailing text after the body
placeholder survives verbatim. -/
def format_external_ip (host : SockAddr) (path : String) : String :=
  "POST " ++ path ++ " HTTP/1.1\r\nHost: " ++ sockAddrDisplay host ++
  "\r\nContent-Length: " ++ toString GET_EXTERNAL_IP_SOAP_ENV.utf8ByteSize ++
  "\r\nContent-Type: text/xml\r\nSOAPAction: \"urn:schemas-upnp-org:service:WANIPConnection:2#GetExternalIPAddress\"\r\nConnection: Close\r\n\r\n" ++
  GET_EXTERNAL_IP_SOAP_ENV ++ "\n        "

/-- `util::PortMapping`.  `duration` is the lease in whole seconds, as the
formatter renders `Duration::as_secs()`. -/
structure PortMapping where
  protocol : Protocol
  address : IpAddr
  port : Nat
  description : String
  duration : Nat

/-- The SOAP body built by `util::format_add_any_port_mapping` (its `body`
local), with the raw string literal's exact text: external port fixed to 0,
then protocol, internal port, internal client, enabled flag, description and
lease duration. -/
def add_any_port_mapping_body (pm : PortMapping) : String :=
  "<?xml version=\"1.0\" encoding=\"utf-8\"?>\n        <s:Envelope xmlns:s=\"http://schemas.xmlsoap.org/soap/envelope/\" s:encodingStyle=\"http://schemas.xmlsoap.org/soap/encoding/\">\n            <s:Body>\n                <u:AddAnyPortMapping xmlns:u=\"urn:schemas-upnp-org:service:WANIPConnection:2\">\n                    <u:NewRemoteHost/>\n                    <u:NewExternalPort>0</u:NewExternalPort>\n                    <u:NewProtocol>" ++
  protocolDisplay pm.protocol ++
  "</u:NewProtocol>\n                    <u:NewInternalPort>" ++
  toString pm.port ++
  "</u:NewInternalPort>\n                    <u:NewInternalClient>" ++
  ipAddrDisplay pm.address ++
  "</u:NewInternalClient>\n                    <u:NewEnabled>true</u:NewEnabled>\n                    <u:NewPortMappingDescription>" ++
  pm.description ++
  "</u:NewPortMappingDescription>\n                    <u:NewLeaseDuration>" ++
  toString pm.duration ++
  "</u:NewLeaseDuration>\n                </u:AddAnyPortMapping>\n            </s:Body>\n        </s:Envelope>\n        "

/-- `util::format_add_any_port_mapping`: the POST request for
AddAnyPortMapping. -/
def format_add_any_port_mapping (host : SockAddr) (path : String) (pm : PortMapping) : String :=
  let body := add_any_port_mapping_body pm
  "POST " ++ path ++ " HTTP/1.1\r\nHost: " ++ sockAddrDisplay host ++
  "\r\nContent-Length: " ++ toString body.utf8ByteSize ++
  "\r\nContent-Type: text/xml\r\nSOAPAction: \"urn:schemas-upnp-org:service:WANIPConnection:2#AddAnyPortMapping\"\r\nConnection: Close\r\n\r\n" ++
  body ++ "\n        "

/-- The body of an HTTP response after the header block, at the stage the
extract functions consume it: bytes that are not UTF-8, text that is not
well-formed XML, or a parsed document given by its top-level nodes.  Models
`str::from_utf8` followed by `roxmltree::Document::parse`. -/
inductive RespBody where
  | notUtf8
  | badXml
  | xmlDoc (doc : List Xml)

/-- Outcome of `httparse::Response::parse` on a full TCP response, as the
extract functions consume it: a parse error, an incomplete message
(httparse's `Status::Partial`, which the crate leaves unimplemented), or a
complete header block with its status code and the body that follows it. -/
inductive SoapResponse where
  | parseErr
  | incomplete
  | complete (code : Nat) (body : RespBody)

/-- Result of a response-processing step: a value, an error, or the
`unimplemented!()` arm that the source reaches on a partial HTTP parse. -/
inductive StepResult (α : Type) where
  | ok (a : α)
  | err (e : Error)
  | unhandled
deriving DecidableEq

/-- `Document::parse` followed by `document.root()`: a synthetic root node
whose children are the document's top-level nodes (like roxmltree's root, it
has no meaningful tag name and no text). -/
def docRoot (doc : List Xml) : Xml :=
  .elem "#document" (.ofList doc)

/-- The result-field navigation of `extract_external_ip`:
`Envelope → Body → GetExternalIPAddressResponse → NewExternalIPAddress`
from the document root. -/
def external_ip_field (doc : List Xml) : Cursor :=
  ((((Cursor.mk (some (docRoot doc))).get "Envelope").get "Body").get
    "GetExternalIPAddressResponse").get "NewExternalIPAddress"

/-- `lib.rs::extract_external_ip`: on a complete 200 response with a
well-formed body, navigate the fixed path and return the text parsed as an
IP address, absent on any failure along the way; non-200 is a status error,
and decode failures are errors. -/
def extract_external_ip (resp : SoapResponse) : StepResult (Option IpAddr) :=
  match resp with
  | .parseErr => .err .httpErr
  | .incomplete => .unhandled
  | .complete code body =>
    if code = 200 then
      match body with
      | .notUtf8 => .err .utf8Err
      | .badXml => .err .xmlErr
      | .xmlDoc doc => .ok ((external_ip_field doc).text.bind parseIpAddr)
    else .err (.statusCode (some code))

/-- The result-field navigation of `extract_port_mapping` exactly as the
source writes it: `Envelope → Body → AddAnyPortMapping → NewReservedPort`
from the document root (note: the source descends into `AddAnyPortMapping`,
not `AddAnyPortMappingResponse`). -/
def reserved_port_field (doc : List Xml) : Cursor :=
  ((((Cursor.mk (some (docRoot doc))).get "Envelope").get "Body").get
    "AddAnyPortMapping").get "NewReservedPort"

/-- `lib.rs::extract_port_mapping`. -/
def extract_port_mapping (resp : SoapResponse) : StepResult (Option Nat) :=
  match resp with
  | .parseErr => .err .httpErr
  | .incomplete => .unhandled
  | .complete code body =>
    if code = 200 then
      match body with
      | .notUtf8 => .err .utf8Err
      | .badXml => .err .xmlErr
      | .xmlDoc doc => .ok ((reserved_port_field doc).text.bind parseU16)
    else .err (.statusCode (some code))

/-- The `for` loop of `extract_control_url`, over the service-tagged
descendants in document order: skip a node whose `serviceType` text does not
ASCII case-insensitively equal the WANIPConnection v2 URN, and also skip a
matching node whose `controlURL` has no text; return the first control URL
text found. -/
def controlUrlLoop : List Xml → Option String
  | [] => none
  | node :: rest =>
    let cursor := Cursor.mk (some node)
    if asciiCaseEq SERVICE_TYPE (((cursor.get "serviceType").text).getD "") then
      match (cursor.get "controlURL").text with
      | some u => some u
      | none => controlUrlLoop rest
    else controlUrlLoop rest

/-- All descendant elements tagged `service`, in document order
(`document.descendants().filter(|n| n.has_tag_name("service"))`). -/
def service_nodes (doc : List Xml) : List Xml :=
  (docRoot doc).descendants.filter (hasTagName "service")

/-- `lib.rs::extract_control_url`: on a complete 200 response with a
well-formed body, scan the service elements and rebase the discovered
control path onto the base URL; when no control URL is found the result is
the missing-control-url error. -/
def extract_control_url (base : Url) (resp : SoapResponse) : StepResult Url :=
  match resp with
  | .parseErr => .err .httpErr
  | .incomplete => .unhandled
  | .complete code body =>
    if code = 200 then
      match body with
      | .notUtf8 => .err .utf8Err
      | .badXml => .err .xmlErr
      | .xmlDoc doc =>
        match controlUrlLoop (service_nodes doc) with
        | some u => .ok (base.setPath u)
        | none => .err .controlUrl
    else .err (.statusCode (some code))

/-- One header of a received M-SEARCH reply.  `value` models
`str::from_utf8(bytes).ok().and_then(|s| Url::parse(s).ok())` applied to the
raw header value: `none` when the bytes are not UTF-8 or not a parsable
URL. -/
structure ReplyHeader where
  name : String
  value : Option Url

/-- Outcome of `httparse::Response::parse` on a received M-SEARCH datagram.
`discover` only propagates the `Result` and never inspects the
complete/partial distinction, so both successful outcomes are `parsed`;
`code = none` is a parse that stopped before a status code could be read —
the reply with no parsable status line. -/
inductive ReplyParse where
  | errored
  | parsed (code : Option Nat) (headers : List ReplyHeader)

/-- What the receive-versus-1-second-timer race of one discovery attempt
yields, indexed by the attempt number: a datagram arrived inside the window
(with its parse outcome), the receive failed, the timer failed, or the timer
won (silence — the buffer is reclaimed and the attempt is retried). -/
inductive AttemptOutcome where
  | received (r : ReplyParse)
  | recvFailed
  | timerFailed
  | timedOut

/-- The `Discovery` state of `lib.rs`: the device description URL paired
with the socket address it resolves to. -/
structure Discovery where
  url : Url
  addr : SockAddr
deriving DecidableEq

/-- The continuation of `Igdp::discover` once a datagram has been received
(lib.rs lines 145-181): an HTTP parse failure is an error; a status other
than 200 is a status-code error carrying the (possibly absent) code; the
first header whose name ASCII case-insensitively equals "LOCATION" must
carry a parsable URL, else the missing-location error; finally the URL is
resolved with `url2sock`. -/
def discover_parse_reply : ReplyParse → Except Error Discovery
  | .errored => .error .httpErr
  | .parsed code headers =>
    if code = some 200 then
      match (headers.find? fun h => asciiCaseEq h.name "LOCATION").bind ReplyHeader.value with
      | some u =>
        match url2sock u with
        | .ok addr => .ok ⟨u, addr⟩
        | .error e => .error e
      | none => .error .location
    else .error (.statusCode code)

/-- The `loop_fn` retry loop of `Igdp::discover`, at attempt index `i` with
`fuel = 4 - i` attempts remaining (the source counts `i` from 1 and gives up
once `i > 3`).  Returns the number of M-SEARCH sends performed together with
the loop outcome: the parse of the datagram that broke the loop, or an
error (`timeout` when the fuel ran out, the I/O error when a receive
failed, the timer error when the timer failed). -/
def discover_loop (env : Nat → AttemptOutcome) : Nat → Nat → Nat × Except Error ReplyParse
  | _, 0 => (0, .error .timeout)
  | i, fuel + 1 =>
    match env i with
    | .received r => (1, .ok r)
    | .recvFailed => (1, .error .ioErr)
    | .timerFailed => (1, .error .timer)
    | .timedOut =>
      let rest := discover_loop env (i + 1) fuel
      (rest.1 + 1, rest.2)

/-- `Igdp::discover`: run the retry loop from attempt 1 (up to 3 sends) and
feed the datagram that broke the loop to the reply parser.  Returns the
number of sends together with the outcome. -/
def discover (env : Nat → AttemptOutcome) : Nat × Except Error Discovery :=
  let p := discover_loop env 1 3
  (p.1, p.2.bind discover_parse_reply)

/-- The `Control` state of `lib.rs`: the control URL paired with the
resolved socket address. -/
structure Control where
  url : Url
  addr : SockAddr
deriving DecidableEq

/-- The `Igdp` session struct: a socket (abstracted to an identifier), the
bound local IP address, the reusable receive buffer (bytes), and the
phase-specific state. -/
structure Igdp (σ : Type) where
  socket : Nat
  localAddr : IpAddr
  buffer : List Nat
  state : σ
deriving DecidableEq

/-- `Igdp::<Control>::external_ip`, with the TCP exchange abstracted:
`resp` is the parsed response that `util::fetch` delivered for the request
`format_external_ip(&self.state.addr, self.state.url.path())`.  On success
the session is rebuilt from its own fields and returned with the extracted
address. -/
def Igdp.external_ip (self : Igdp Control) (resp : SoapResponse) :
    StepResult (Igdp Control × Option IpAddr) :=
  let _req := format_external_ip self.state.addr self.state.url.path
  match extract_external_ip resp with
  | .ok extIp =>
    .ok ({ socket := self.socket, buffer := self.buffer,
           localAddr := self.localAddr, state := self.state }, extIp)
  | .err e => .err e
  | .unhandled => .unhandled

/-- `Igdp::<Control>::add_port_mapping`, with the TCP exchange abstracted.
The request is built from the session's local address and control state; on
success the session is rebuilt from its own fields and returned with the
extracted external port. -/
def Igdp.add_port_mapping (self : Igdp Control) (proto : Protocol) (port : Nat)
    (dura : Nat) (description : String) (resp : SoapResponse) :
    StepResult (Igdp Control × Option Nat) :=
  let pmap : PortMapping :=
    { protocol := proto, address := self.localAddr, port := port,
      description := description, duration := dura }
  let _req := format_add_any_port_mapping self.state.addr self.state.url.path pmap
  match extract_port_mapping resp with
  | .ok p =>
    .ok ({ socket := self.socket, buffer := self.buffer,
           localAddr := self.localAddr, state := self.state }, p)
  | .err e => .err e
  | .unhandled => .unhandled

/-- Contiguous-substring test on character lists, used to state the
wire-format claims. -/
def listContainsSub (hay needle : List Char) : Bool :=
  needle.isPrefixOf hay ||
    match hay with
    | [] => false
    | _ :: t => listContainsSub t needle

/-- Contiguous-substring test on strings. -/
def strContains (hay needle : String) : Bool :=
  listContainsSub hay.data needle.data

theorem isPrefixOf_append_extend (n x y : List Char) (h : n.isPrefixOf x = true) :
    n.isPrefixOf (x ++ y) = true := by
  induction n generalizing x with
  | nil => simp [List.isPrefixOf]
  | cons c cs ih =>
    cases x with
    | nil => simp [List.isPrefixOf] at h
    | cons d ds =>
      simp only [List.cons_append, List.isPrefixOf, Bool.and_eq_true] at h ⊢
      exact ⟨h.1, ih ds h.2⟩

theorem listContainsSub_append_l (x y n : List Char) (h : listContainsSub x n = true) :
    listContainsSub (x ++ y) n = true := by
  induction x with
  | nil =>
    simp only [listContainsSub, Bool.or_eq_true] at h
    rcases h with h | h
    · have : n = [] := by
        cases n with
        | nil => rfl
        | cons c cs => simp [List.isPrefixOf] at h
      subst this
      cases y <;> simp [listContainsSub, List.isPrefixOf]
    · exact absurd h (by simp)
  | cons c cs ih =>
    simp only [listContainsSub, Bool.or_eq_true] at h ⊢
    rcases h with h | h
    · exact Or.inl (isPrefixOf_append_extend _ _ _ h)
    · exact Or.inr (ih h)

theorem listContainsSub_append_r (x y n : List Char) (h : listContainsSub y n = true) :
    listContainsSub (x ++ y) n = true := by
  induction x with
  | nil => simpa using h
  | cons c cs ih =>
    simp only [List.cons_append, listContainsSub, Bool.or_eq_true]
    exact Or.inr ih

theorem strContains_append_left (a b n : String) (h : strContains a n = true) :
    strContains (a ++ b) n = true := by
  cases a with
  | mk da =>
    cases b with
    | mk db => exact listContainsSub_append_l da db n.data h

theorem strContains_append_right (a b n : String) (h : strContains b n = true) :
    strContains (a ++ b) n = true := by
  cases a with
  | mk da =>
    cases b with
    | mk db => exact listContainsSub_append_r da db n.data h

theorem string_append_assoc (a b c : String) : a ++ b ++ c = a ++ (b ++ c) := by
  cases a with
  | mk da =>
    cases b with
    | mk db =>
      cases c with
      | mk dc =>
        show String.mk (da ++ db ++ dc) = String.mk (da ++ (db ++ dc))
        rw [List.append_assoc]

set_option maxRecDepth 8192

/-! Theorems settling the claims. -/

theorem discover_loop_sends_le (env : Nat → AttemptOutcome) :
    ∀ fuel i, (discover_loop env i fuel).1 ≤ fuel := by
  intro fuel
  induction fuel with
  | zero => intro i; simp [discover_loop]
  | succ f ih =>
    intro i
    simp only [discover_loop]
    cases h : env i with
    | received r => simp
    | recvFailed => simp
    | timerFailed => simp
    | timedOut =>
      simp only []
      exact Nat.succ_le_succ (ih (i + 1))

/-- C1: the discovery loop performs at most 3 M-SEARCH sends (each send is
followed by one receive window, modelled by one `AttemptOutcome`); when all
three windows stay silent it ends in the Timeout error after exactly 3
sends; and when the window of attempt `k ≤ 3` (the earlier ones silent)
delivers a datagram, the loop stops after exactly `k` sends — in particular
at most `k` — and the received datagram is handed to the reply parser. -/
theorem discover_retry_policy (env : Nat → AttemptOutcome) :
    (discover env).1 ≤ 3 ∧
    ((∀ i, 1 ≤ i → i ≤ 3 → env i = .timedOut) → discover env = (3, .error .timeout)) ∧
    (∀ k r, 1 ≤ k → k ≤ 3 → (∀ i, 1 ≤ i → i < k → env i = .timedOut) →
      env k = .received r →
      (discover env).1 = k ∧ (discover env).2 = discover_parse_reply r) := by
  refine ⟨discover_loop_sends_le env 3 1, ?_, ?_⟩
  · intro h
    have h1 := h 1 (by omega) (by omega)
    have h2 := h 2 (by omega) (by omega)
    have h3 := h 3 (by omega) (by omega)
    simp [discover, discover_loop, h1, h2, h3, Except.bind]
  · intro k r hk1 hk3 hprev hk
    interval_cases k
    · constructor <;> simp [discover, discover_loop, hk, Except.bind]
    · have h1 := hprev 1 (by omega) (by omega)
      constructor <;> simp [discover, discover_loop, h1, hk, Except.bind]
    · have h1 := hprev 1 (by omega) (by omega)
      have h2 := hprev 2 (by omega) (by omega)
      constructor <;> simp [discover, discover_loop, h1, h2, hk, Except.bind]

/-- Witness for C1: with a gateway that never replies the loop ends in
Timeout after exactly 3 sends, and with a gateway that replies only in the
second window the loop stops after 2 sends and parses that reply. -/
theorem discover_retry_policy_check :
    discover (fun _ => .timedOut) = (3, .error .timeout) ∧
    ((discover (fun i => if i = 2 then .received (.parsed (some 200) []) else .timedOut)).1 = 2 ∧
      (discover (fun i => if i = 2 then .received (.parsed (some 200) []) else .timedOut)).2 =
        discover_parse_reply (.parsed (some 200) [])) :=
  ⟨(discover_retry_policy (fun _ => .timedOut)).2.1 (fun _ _ _ => rfl),
   (discover_retry_policy _).2.2 2 (.parsed (some 200) []) (by omega) (by omega)
     (by intro i h1 h2; interval_cases i; rfl) rfl⟩

/-- The specified result-field navigation for AddAnyPortMapping, following
the specification's `Envelope → Body → <ActionName>Response → <ResultField>`
path with the response element `AddAnyPortMappingResponse` and the result
field `NewReservedPort` parsed as an unsigned 16-bit number.  Stated
separately from `extract_port_mapping` so the two can be compared. -/
def spec_add_any_port_mapping_result (doc : List Xml) : Option Nat :=
  (((((Cursor.mk (some (docRoot doc))).get "Envelope").get "Body").get
    "AddAnyPortMappingResponse").get "NewReservedPort").text.bind parseU16

/-- C2: the code diverges from the specified path for AddAnyPortMapping.  On
a 200 response whose body is the standard
`Envelope → Body → AddAnyPortMappingResponse → NewReservedPort` SOAP reply,
`extract_port_mapping` returns no port — it descends into an element named
`AddAnyPortMapping`, not `AddAnyPortMappingResponse` — while the
specification's navigation finds the reserved port 1234.  (The
GetExternalIPAddress side conforms: the third conjunct shows the
`GetExternalIPAddressResponse → NewExternalIPAddress` text parsed as an IP
address.) -/
theorem add_any_port_mapping_response_path_bug :
    extract_port_mapping (.complete 200 (.xmlDoc
      [xelem "Envelope" [xelem "Body"
        [xelem "AddAnyPortMappingResponse" [xelem "NewReservedPort" [.text "1234"]]]]])) =
      .ok none ∧
    spec_add_any_port_mapping_result
      [xelem "Envelope" [xelem "Body"
        [xelem "AddAnyPortMappingResponse" [xelem "NewReservedPort" [.text "1234"]]]]] =
      some 1234 ∧
    extract_external_ip (.complete 200 (.xmlDoc
      [xelem "Envelope" [xelem "Body"
        [xelem "GetExternalIPAddressResponse"
          [xelem "NewExternalIPAddress" [.text "203.0.113.7"]]]]])) =
      .ok (some (.v4 203 0 113 7)) := by
  refine ⟨by decide, by decide, by decide⟩

theorem controlUrlLoop_eq_findSome (l : List Xml) :
    controlUrlLoop l = l.findSome? (fun n =>
      if asciiCaseEq SERVICE_TYPE ((((Cursor.mk (some n)).get "serviceType").text).getD "") then
        ((Cursor.mk (some n)).get "controlURL").text
      else none) := by
  induction l with
  | nil => rfl
  | cons n rest ih =>
    simp only [controlUrlLoop, List.findSome?]
    by_cases h : asciiCaseEq SERVICE_TYPE ((((Cursor.mk (some n)).get "serviceType").text).getD "") = true
    · simp only [h, if_true]
      cases hct : ((Cursor.mk (some n)).get "controlURL").text <;> simp [hct, ih]
    · simp [h, ih]

/-- The control URL actually selected: the text of the `controlURL` child of
the first service element, in document order, whose `serviceType` matches
the WANIPConnection v2 URN ASCII case-insensitively AND whose `controlURL`
has extractable text (a matching element without one is skipped, not
fatal). -/
def first_usable_control_url (doc : List Xml) : Option String :=
  (service_nodes doc).findSome? fun n =>
    if asciiCaseEq SERVICE_TYPE ((((Cursor.mk (some n)).get "serviceType").text).getD "") then
      ((Cursor.mk (some n)).get "controlURL").text
    else none

/-- C3 (amended): on a 200 response with a well-formed body, the resolve
step rebases the base URL onto the control URL of the first matching
service element that has extractable `controlURL` text, and fails with the
missing-control-url error exactly when no matching service element has one
(in particular when no service matches at all). -/
theorem control_url_scan_characterization (base : Url) (doc : List Xml) :
    extract_control_url base (.complete 200 (.xmlDoc doc)) =
      match first_usable_control_url doc with
      | some u => .ok (base.setPath u)
      | none => .err .controlUrl := by
  simp [extract_control_url, first_usable_control_url, ← controlUrlLoop_eq_findSome]

/-- Counterexample to C3 as stated: in this document the first service
element matching the WANIPConnection v2 URN has no `controlURL` child (the
second conjunct), so by the claim resolution should fail with the
missing-control-url error; instead the code skips it and succeeds with the
control URL `/ctrl2` taken from the second matching element (first
conjunct — note the second element's serviceType matches only
case-insensitively). -/
theorem control_url_first_match_counterexample :
    extract_control_url ⟨"http", some (.ipv4 192 168 1 1), some 49152, "/desc.xml"⟩
      (.complete 200 (.xmlDoc
        [xelem "root"
          [xelem "service"
            [xelem "serviceType" [.text "urn:schemas-upnp-org:service:WANIPConnection:2"]],
           xelem "service"
            [xelem "serviceType" [.text "URN:SCHEMAS-UPNP-ORG:SERVICE:WANIPCONNECTION:2"],
             xelem "controlURL" [.text "/ctrl2"]]]])) =
      .ok ⟨"http", some (.ipv4 192 168 1 1), some 49152, "/ctrl2"⟩ ∧
    ((service_nodes
        [xelem "root"
          [xelem "service"
            [xelem "serviceType" [.text "urn:schemas-upnp-org:service:WANIPConnection:2"]],
           xelem "service"
            [xelem "serviceType" [.text "URN:SCHEMAS-UPNP-ORG:SERVICE:WANIPCONNECTION:2"],
             xelem "controlURL" [.text "/ctrl2"]]]]).find? fun n =>
      asciiCaseEq SERVICE_TYPE ((((Cursor.mk (some n)).get "serviceType").text).getD "")).map
        (fun n => ((Cursor.mk (some n)).get "controlURL").text) = some none := by
  refine ⟨by decide, by decide⟩

/-- C4: for a complete 200-status action response with a well-formed XML
body, both extract functions report success: an absent result field yields
`ok none`, a result field whose text fails to parse as the expected scalar
(IP address, or unsigned 16-bit number) yields `ok none`, and in every such
case the outcome is some `ok` value — never an error. -/
theorem action_missing_result_not_error (doc : List Xml) :
    ((external_ip_field doc).text = none →
      extract_external_ip (.complete 200 (.xmlDoc doc)) = .ok none) ∧
    (∀ s, (external_ip_field doc).text = some s → parseIpAddr s = none →
      extract_external_ip (.complete 200 (.xmlDoc doc)) = .ok none) ∧
    (∃ v, extract_external_ip (.complete 200 (.xmlDoc doc)) = .ok v) ∧
    ((reserved_port_field doc).text = none →
      extract_port_mapping (.complete 200 (.xmlDoc doc)) = .ok none) ∧
    (∀ s, (reserved_port_field doc).text = some s → parseU16 s = none →
      extract_port_mapping (.complete 200 (.xmlDoc doc)) = .ok none) ∧
    (∃ p, extract_port_mapping (.complete 200 (.xmlDoc doc)) = .ok p) := by
  refine ⟨?_, ?_, ?_, ?_, ?_, ?_⟩
  · intro h; simp [extract_external_ip, h]
  · intro s hs hp; simp [extract_external_ip, hs, hp]
  · exact ⟨_, rfl⟩
  · intro h; simp [extract_port_mapping, h]
  · intro s hs hp; simp [extract_port_mapping, hs, hp]
  · exact ⟨_, rfl⟩

/-- Witness for C4: an empty document has no result field and yields
`ok none` for both actions; a present `NewExternalIPAddress` whose text is
not an IP address, and a present `NewReservedPort` whose text overflows a
16-bit number, also yield `ok none`. -/
theorem action_missing_result_not_error_check :
    extract_external_ip (.complete 200 (.xmlDoc [])) = .ok none ∧
    extract_external_ip (.complete 200 (.xmlDoc
      [xelem "Envelope" [xelem "Body"
        [xelem "GetExternalIPAddressResponse"
          [xelem "NewExternalIPAddress" [.text "not-an-ip"]]]]])) = .ok none ∧
    extract_port_mapping (.complete 200 (.xmlDoc [])) = .ok none ∧
    extract_port_mapping (.complete 200 (.xmlDoc
      [xelem "Envelope" [xelem "Body"
        [xelem "AddAnyPortMapping" [xelem "NewReservedPort" [.text "99999"]]]]])) = .ok none :=
  ⟨(action_missing_result_not_error []).1 (by decide),
   (action_missing_result_not_error _).2.1 "not-an-ip" (by decide) (by decide),
   (action_missing_result_not_error []).2.2.2.1 (by decide),
   (action_missing_result_not_error _).2.2.2.2.1 "99999" (by decide) (by decide)⟩

/-- C5: a received M-SEARCH reply whose status code parses as 404 makes
discover fail with the status-code error carrying 404, and a reply whose
parse yields no status code (the reply with no parsable status line) makes
discover fail with the status-code error carrying no code. -/
theorem msearch_status_errors (headers : List ReplyHeader) :
    (discover (fun _ => .received (.parsed (some 404) headers))).2 =
      .error (.statusCode (some 404)) ∧
    (discover (fun _ => .received (.parsed none headers))).2 =
      .error (.statusCode none) := by
  constructor <;> simp [discover, discover_loop, discover_parse_reply, Except.bind]

/-- C6: resolving a discovered location URL to a socket address succeeds
exactly when the URL's host is a literal IPv4 or IPv6 address and an
explicit port is available, and a symbolic host name always yields the
host/port error (`url2sock` is a pure match on host and port, so no name
resolution can occur). -/
theorem url2sock_literal_host_only (u : Url) :
    ((url2sock u).isOk = true ↔ hostIsLiteralIp u.host = true ∧ u.port.isSome = true) ∧
    (∀ name, u.host = some (.domain name) → url2sock u = .error .hostPort) := by
  obtain ⟨sch, host, port, path⟩ := u
  constructor
  · rcases host with _ | (⟨a, b, c, d⟩ | ⟨g1, g2, g3, g4, g5, g6, g7, g8⟩ | ⟨n⟩) <;>
      rcases port with _ | p <;>
        simp [url2sock, hostIsLiteralIp, Except.isOk, Except.toBool]
  · intro name h
    simp only [Url.host] at h
    subst h
    rcases port with _ | p <;> rfl

/-- Witness for C6: a URL with the symbolic host `fritz.box` fails with the
host/port error even though it has an explicit port. -/
theorem url2sock_literal_host_only_check :
    (⟨"http", some (.domain "fritz.box"), some 49000, "/igddesc.xml"⟩ : Url).host =
      some (.domain "fritz.box") ∧
    url2sock ⟨"http", some (.domain "fritz.box"), some 49000, "/igddesc.xml"⟩ =
      .error .hostPort :=
  ⟨rfl, (url2sock_literal_host_only _).2 "fritz.box" rfl⟩

/-- C7: for any internal address and description, the SOAP body of an
AddAnyPortMapping request for protocol TCP, internal port 33445 and lease
duration 600 seconds contains the exact literals
`<u:NewProtocol>TCP</u:NewProtocol>`,
`<u:NewInternalPort>33445</u:NewInternalPort>` and
`<u:NewLeaseDuration>600</u:NewLeaseDuration>`, with the external port
fixed to 0 (`<u:NewExternalPort>0</u:NewExternalPort>`). -/
theorem add_any_port_mapping_body_literals (a : IpAddr) (descr : String) :
    strContains (add_any_port_mapping_body ⟨.tcp, a, 33445, descr, 600⟩)
      "<u:NewProtocol>TCP</u:NewProtocol>" = true ∧
    strContains (add_any_port_mapping_body ⟨.tcp, a, 33445, descr, 600⟩)
      "<u:NewInternalPort>33445</u:NewInternalPort>" = true ∧
    strContains (add_any_port_mapping_body ⟨.tcp, a, 33445, descr, 600⟩)
      "<u:NewLeaseDuration>600</u:NewLeaseDuration>" = true ∧
    strContains (add_any_port_mapping_body ⟨.tcp, a, 33445, descr, 600⟩)
      "<u:NewExternalPort>0</u:NewExternalPort>" = true := by
  refine ⟨?_, ?_, ?_, ?_⟩
  · unfold add_any_port_mapping_body
    dsimp only
    apply strContains_append_left
    apply strContains_append_left
    apply strContains_append_left
    apply strContains_append_left
    apply strContains_append_left
    apply strContains_append_left
    apply strContains_append_left
    apply strContains_append_left
    decide
  · unfold add_any_port_mapping_body
    dsimp only
    apply strContains_append_left
    apply strContains_append_left
    apply strContains_append_left
    apply strContains_append_left
    apply strContains_append_left
    apply strContains_append_left
    decide
  · unfold add_any_port_mapping_body
    dsimp only
    simp only [string_append_assoc]
    apply strContains_append_right
    apply strContains_append_right
    apply strContains_append_right
    apply strContains_append_right
    apply strContains_append_right
    apply strContains_append_right
    apply strContains_append_right
    apply strContains_append_right
    decide
  · unfold add_any_port_mapping_body
    dsimp only
    apply strContains_append_left
    apply strContains_append_left
    apply strContains_append_left
    apply strContains_append_left
    apply strContains_append_left
    apply strContains_append_left
    apply strContains_append_left
    apply strContains_append_left
    apply strContains_append_left
    apply strContains_append_left
    decide

/-- Counterexample to C8 as stated: a concrete GetExternalIPAddress request
does not contain the header line `Connection: close` — the formatter writes
`Connection: Close` with a capital C (the second conjunct), so no formatted
action request contains the claimed literal. -/
theorem action_request_connection_close_counterexample :
    strContains (format_external_ip ⟨.v4 192 168 1 1, 49152⟩ "/ctl")
      "Connection: close" = false ∧
    strContains (format_external_ip ⟨.v4 192 168 1 1, 49152⟩ "/ctl")
      "Connection: Close\r\n" = true := by
  refine ⟨by decide, by decide⟩

/-- C8 (amended): every formatted action request, for both actions, contains
the exact header lines `Content-Type: text/xml`, `SOAPAction:
"urn:schemas-upnp-org:service:WANIPConnection:2#<ActionName>"` with the
corresponding action name, and `Connection: Close` (capital C, as the
formatters write it). -/
theorem action_request_fixed_headers (host : SockAddr) (path : String) (pm : PortMapping) :
    strContains (format_external_ip host path) "Content-Type: text/xml\r\n" = true ∧
    strContains (format_external_ip host path)
      "SOAPAction: \"urn:schemas-upnp-org:service:WANIPConnection:2#GetExternalIPAddress\"\r\n" =
      true ∧
    strContains (format_external_ip host path) "Connection: Close\r\n" = true ∧
    strContains (format_add_any_port_mapping host path pm) "Content-Type: text/xml\r\n" = true ∧
    strContains (format_add_any_port_mapping host path pm)
      "SOAPAction: \"urn:schemas-upnp-org:service:WANIPConnection:2#AddAnyPortMapping\"\r\n" =
      true ∧
    strContains (format_add_any_port_mapping host path pm) "Connection: Close\r\n" = true := by
  refine ⟨?_, ?_, ?_, ?_, ?_, ?_⟩ <;>
    · first
      | (unfold format_external_ip
         apply strContains_append_left
         apply strContains_append_left
         apply strContains_append_right
         decide)
      | (unfold format_add_any_port_mapping
         dsimp only
         apply strContains_append_left
         apply strContains_append_left
         apply strContains_append_right
         decide)

/-- C9: a successful action on a `Control` session returns a session whose
socket, local address, receive buffer, control URL and resolved network
address all equal those of the input session, for both `external_ip` and
`add_port_mapping`. -/
theorem controlled_actions_preserve_session (g : Igdp Control) (resp : SoapResponse)
    (g' : Igdp Control) :
    (∀ v, g.external_ip resp = .ok (g', v) →
      g'.socket = g.socket ∧ g'.localAddr = g.localAddr ∧ g'.buffer = g.buffer ∧
        g'.state.url = g.state.url ∧ g'.state.addr = g.state.addr) ∧
    (∀ proto port dura descr p, g.add_port_mapping proto port dura descr resp = .ok (g', p) →
      g'.socket = g.socket ∧ g'.localAddr = g.localAddr ∧ g'.buffer = g.buffer ∧
        g'.state.url = g.state.url ∧ g'.state.addr = g.state.addr) := by
  constructor
  · intro v h
    cases hres : extract_external_ip resp with
    | ok e =>
      simp only [Igdp.external_ip, hres] at h
      obtain ⟨hg, -⟩ := by simpa using h
      subst hg
      simp
    | err e => simp [Igdp.external_ip, hres] at h
    | unhandled => simp [Igdp.external_ip, hres] at h
  · intro proto port dura descr p h
    cases hres : extract_port_mapping resp with
    | ok e =>
      simp only [Igdp.add_port_mapping, hres] at h
      obtain ⟨hg, -⟩ := by simpa using h
      subst hg
      simp
    | err e => simp [Igdp.add_port_mapping, hres] at h
    | unhandled => simp [Igdp.add_port_mapping, hres] at h

/-- Witness for C9: on a concrete Controlled session and a 200 response with
an empty body document, both actions succeed, return the very same session,
and its fields are preserved. -/
theorem controlled_actions_preserve_session_check :
    (Igdp.external_ip
        ⟨7, .v4 192 168 1 42, [0, 1, 2],
          ⟨⟨"http", some (.ipv4 192 168 1 1), some 49152, "/ctl"⟩, ⟨.v4 192 168 1 1, 49152⟩⟩⟩
        (.complete 200 (.xmlDoc [])) =
      .ok (⟨7, .v4 192 168 1 42, [0, 1, 2],
          ⟨⟨"http", some (.ipv4 192 168 1 1), some 49152, "/ctl"⟩, ⟨.v4 192 168 1 1, 49152⟩⟩⟩,
        none)) ∧
    ((⟨7, .v4 192 168 1 42, [0, 1, 2],
        ⟨⟨"http", some (.ipv4 192 168 1 1), some 49152, "/ctl"⟩,
          ⟨.v4 192 168 1 1, 49152⟩⟩⟩ : Igdp Control).socket = 7 ∧
      (7 : Nat) = 7) :=
  ⟨by decide,
   rfl,
   ((controlled_actions_preserve_session
      ⟨7, .v4 192 168 1 42, [0, 1, 2],
        ⟨⟨"http", some (.ipv4 192 168 1 1), some 49152, "/ctl"⟩, ⟨.v4 192 168 1 1, 49152⟩⟩⟩
      (.complete 200 (.xmlDoc []))
      ⟨7, .v4 192 168 1 42, [0, 1, 2],
        ⟨⟨"http", some (.ipv4 192 168 1 1), some 49152, "/ctl"⟩, ⟨.v4 192 168 1 1, 49152⟩⟩⟩).1
      none (by decide)).1⟩

/-- C10: resolving a URL whose explicit port component is absent fails with
the host/port error even when the host is a literal IP address (the `url`
crate's `Url::port()` reports no port for a URL relying on its scheme's
default port, so such URLs always take this path). -/
theorem url2sock_requires_explicit_port (u : Url) (h : u.port = none) :
    url2sock u = .error .hostPort := by
  obtain ⟨sch, host, port, path⟩ := u
  simp only [Url.port] at h
  subst h
  rcases host with _ | (⟨a, b, c, d⟩ | ⟨g1, g2, g3, g4, g5, g6, g7, g8⟩ | ⟨n⟩) <;> rfl

/-- Witness for C10: the parse of `http://192.168.1.1/desc.xml` (literal
IPv4 host, no explicit port, so `Url::port()` is none) fails with the
host/port error. -/
theorem url2sock_requires_explicit_port_check :
    (⟨"http", some (.ipv4 192 168 1 1), none, "/desc.xml"⟩ : Url).port = none ∧
    url2sock ⟨"http", some (.ipv4 192 168 1 1), none, "/desc.xml"⟩ = .error .hostPort :=
  ⟨rfl, url2sock_requires_explicit_port _ rfl⟩

end UpnpIgdp
